import Mathlib

/-!
Shallow embedding of `src/caelestia/utils/wallpaper.py` and proofs about it.

Modelling conventions (spelled out once here, referenced in the doc comments
of the individual definitions):

* `pathlib.Path` values are modelled by `FsPath`: an absolute/relative flag
  plus the list of name components.  Structural equality of `FsPath` models
  `PurePath.__eq__` (component-wise comparison of the normalized path).
* The filesystem, the image decoder, the monitor IPC, the material colour
  library and the hash function are external effects; they are packaged into
  an `Env` record of oracle functions, and every value read from the outside
  world goes through it.  The mutable on-disk state that the module itself
  writes (pointer files, symlinks, per-wallpaper cache entries) is an explicit
  `World` record threaded through the functions.
* A Python function that can raise is modelled as returning
  `Except Err α × World`: the world component is the state at the moment the
  exception escapes (Python exceptions do not roll mutations back).
* Cache reads collapse "file missing" and "file unreadable/unparsable/falsy"
  into one absent (`none`) case, exactly the collapse the code performs with
  its `try/except` wrappers; cache files hold values of their artifact type
  (a foreign file whose bytes parse to a value of a different shape is out of
  model).
* Python ints are `Int` (unbounded in Python, so no wrap-around), Python
  floats are modelled as `ℚ` (the claims under verification never depend on
  rounding of binary floating point, only on comparisons and truncation of
  small decimal values).
-/

/-- Model of `pathlib.Path`: an absolute marker plus name components.
`Path("walls/a.png")` is `⟨false, ["walls", "a.png"]⟩`;
`Path("/home/u/a.png")` is `⟨true, ["home", "u", "a.png"]⟩`. -/
structure FsPath where
  absolute : Bool
  components : List String
deriving DecidableEq, Repr

/-- `p / sub₁ / sub₂ …`: appending relative components to a path keeps the
root's absolute flag. This is what `dir.rglob("*")` results and
`cache / "thumbnail.jpg"` are built from. -/
def FsPath.join (p : FsPath) (rel : List String) : FsPath :=
  { absolute := p.absolute, components := p.components ++ rel }

/-- `Path.name`: the final component (empty for a bare root). -/
def FsPath.name (p : FsPath) : String :=
  (p.components.getLast?).getD ""

/-- Index of the last occurrence of `'.'` in a character list, if any. -/
def rfindDot : List Char → Option Nat
  | [] => none
  | c :: rest =>
    match rfindDot rest with
    | some i => some (i + 1)
    | none => if c = '.' then some 0 else none

/-- `PurePath.suffix`, per CPython: the substring of `name` from its last dot,
but only when that dot is neither the first nor the last character; otherwise
the empty string. -/
def FsPath.suffix (p : FsPath) : String :=
  let cs := p.name.toList
  match rfindDot cs with
  | some i => if 0 < i ∧ i < cs.length - 1 then String.mk (cs.drop i) else ""
  | none => ""

/-- `Path.resolve()`: an absolute path is returned as is; a relative path is
anchored at the current working directory. Symlink and dot-segment
normalization performed by the real `resolve` is outside the model (the
claims never exercise it). -/
def resolve (cwd : List String) (p : FsPath) : FsPath :=
  if p.absolute then p else { absolute := true, components := cwd ++ p.components }

/-- A Python value as found in `img.info` (PIL metadata dictionary), as far
as `isinstance(x, (int, float))`, truthiness and `int(x)` are concerned.
`nonNumeric` abstracts every non-`int`/non-`float` value (`None`, `str`,
tuples, …) together with its truthiness; `int()` on such a value is modelled
as raising (numeric strings, which `int()` would accept, do not occur as PIL
metadata values and are outside the model). -/
inductive PyVal where
  | int (n : Int)
  | float (q : ℚ)
  | nonNumeric (truthy : Bool)
deriving DecidableEq, Repr

/-- Python truthiness of a `PyVal`: zero is falsy, any nonzero number truthy. -/
def pyTruthy : PyVal → Bool
  | .int n => n ≠ 0
  | .float q => q ≠ 0
  | .nonNumeric t => t

/-- `int(x)` truncates a float toward zero. -/
def pyTrunc (q : ℚ) : Int :=
  q.num.tdiv (q.den : Int)

/-- `int(x)`: succeeds on numbers (floats truncate toward zero), raises
(`none`) on non-numeric values. -/
def pyToInt : PyVal → Option Int
  | .int n => some n
  | .float q => some (pyTrunc q)
  | .nonNumeric _ => none

/-- What `Image.open` exposes to `_extract_animated_metadata`: the
`is_animated` / `n_frames` / `format` attributes and the `info` dictionary
entries for `"duration"` and `"loop"` (`none` = key absent). -/
structure ImgInfo where
  is_animated : Bool
  n_frames : Nat
  format : Option String
  duration : Option PyVal
  loop : Option PyVal
deriving DecidableEq, Repr

/-- The dictionary produced by `_extract_animated_metadata` (and the parsed
content of `animated_meta.json`). -/
structure AnimatedMetadata where
  is_animated : Bool
  format : Option String
  n_frames : Nat
  frame_duration_ms : Option Int
  total_duration_ms : Option Int
  loop : Option Int
deriving DecidableEq, Repr

/-- `_extract_animated_metadata(path)`.  The argument is the decoder's view of
the file: `none` models `Image.open`/attribute access raising, which the
function catches, returning the all-default struct. -/
def _extract_animated_metadata (d : Option ImgInfo) : AnimatedMetadata :=
  match d with
  | none =>
    { is_animated := false, format := none, n_frames := 1,
      frame_duration_ms := none, total_duration_ms := none, loop := none }
  | some info =>
    let is_anim := info.is_animated
    let n_frames := if is_anim then info.n_frames else 1
    let per_frame_duration := info.duration.getD (PyVal.int 0)
    let total_duration : Option Int :=
      if is_anim ∧ pyTruthy per_frame_duration ∧ n_frames ≠ 0 then
        match pyToInt per_frame_duration with
        | some k => some (k * (n_frames : Int))
        | none => none
      else none
    { is_animated := is_anim
      format := info.format
      n_frames := n_frames
      frame_duration_ms :=
        match per_frame_duration with
        | .int n => some n
        | .float q => some (pyTrunc q)
        | .nonNumeric _ => none
      total_duration_ms := total_duration
      loop :=
        match info.loop with
        | some (.int n) => some n
        | _ => none }

/-- The in-memory image as far as this module observes it: pixel dimensions
plus an opaque content token (`data`) that the external image operations and
classifiers act on. -/
structure Img where
  width : Nat
  height : Nat
  data : Nat
deriving DecidableEq, Repr

/-- The dictionary produced by `get_smart_opts` (and the parsed content of
`smart.json`). -/
structure SmartOpts where
  variant : String
  mode : String
deriving DecidableEq, Repr

/-- The colour scheme object from `caelestia.utils.scheme` as consumed here:
its fields plus an opaque `colours` palette token. -/
structure Scheme where
  name : String
  flavour : String
  mode : String
  variant : String
  colours : String
deriving DecidableEq, Repr

/-- A monitor descriptor as returned by the `message("monitors")` IPC call. -/
structure Monitor where
  width : Nat
  height : Nat
deriving DecidableEq, Repr

/-- A parsed JSON value (`json.loads` result), for the user config file. -/
inductive JValue where
  | null
  | bool (b : Bool)
  | num (n : Int)
  | str (s : String)
  | arr (xs : List JValue)
  | obj (fields : List (String × JValue))

/-- Python truthiness of a parsed JSON value. -/
def jTruthy : JValue → Bool
  | .null => false
  | .bool b => b
  | .num n => n ≠ 0
  | .str s => s ≠ ""
  | .arr xs => !xs.isEmpty
  | .obj fields => !fields.isEmpty

/-- `dict.get(key)` on a parsed JSON object: the value bound to the last
occurrence of the key (later duplicate keys win in `json.loads`), or `none`
when the key is absent. -/
def jLookup (fields : List (String × JValue)) (key : String) : Option JValue :=
  match fields with
  | [] => none
  | (k, v) :: rest =>
    match jLookup rest key with
    | some r => some r
    | none => if k = key then some v else none

/-- Outcome of `user_config_path.read_text()` followed by `json.loads`:
the file may be missing (`FileNotFoundError`), its text may fail to parse
(`json.JSONDecodeError`), or it parses to a JSON value. -/
inductive ConfigRead where
  | missing
  | unparsable
  | parsed (v : JValue)

/-- The exceptions that can escape the modelled functions. -/
inductive Err where
  | invalidImage
  | noWallpapers
  | indexError
  | decodeError
  | attributeError
  | typeError
  | emptySeqError
deriving DecidableEq, Repr

/-- One per-wallpaper cache directory: the three independent artifacts.
`none` collapses "file missing" and "file unreadable/unparsable/falsy", the
exact collapse the code's `try/except` cache reads perform. -/
structure WallCache where
  animatedMeta : Option AnimatedMetadata
  thumb : Option Img
  smartOpts : Option SmartOpts
deriving Repr

/-- The on-disk state this module mutates: the two pointer artifacts, the
current-thumbnail symlink, the per-cache-directory artifacts, and the
observable effects of the theme application and post-hook steps. -/
structure World where
  wallpaperPathFile : Option FsPath
  wallpaperLink : Option FsPath
  thumbnailLink : Option FsPath
  cache : FsPath → WallCache
  schemeOut : Option Scheme
  appliedColours : Option (String × String)
  hookRan : Option (JValue × FsPath)

/-- Replace the cache entry of one cache directory. -/
def World.setCache (w : World) (d : FsPath) (e : WallCache) : World :=
  { w with cache := fun k => if k = d then e else w.cache k }

/-- The external collaborators: filesystem queries, the image decoder, the
image operations and classifiers, the hash function, the monitor IPC, the
scheme accessor, the colour recomputation, the user config, and the random
index consumed by `random.choice`. -/
structure Env where
  cwd : List String
  isFile : FsPath → Bool
  isDir : FsPath → Bool
  tree : FsPath → List (List String)
  decodeInfo : FsPath → Option ImgInfo
  decodeRGB : FsPath → Option Img
  thumbnailOf : Img → Img
  getVariant : Img → String
  tone : Img → ℚ
  hashOf : FsPath → String
  wallpapersCacheDir : FsPath
  monitors : List Monitor
  scheme : Scheme
  computeColours : Scheme → String
  userConfig : ConfigRead
  choiceIdx : Nat

/-- CLI arguments consumed by the selector (`args.random` is the scan root,
already wrapped as a path). -/
structure Args where
  random : FsPath
  no_filter : Bool
  threshold : ℚ
  no_smart : Bool

/-- `str.lower()`, character by character (the extensions under comparison
are ASCII, where this agrees with Python's `str.lower`). -/
def str_lower (s : String) : String :=
  String.mk (s.toList.map Char.toLower)

/-- Extension allow-list from `is_valid_image`. -/
def VALID_IMAGE_SUFFIXES : List String :=
  [".jpg", ".jpeg", ".png", ".webp", ".tif", ".tiff", ".gif"]

/-- `is_valid_image(path)`: regular file with an allow-listed extension
(case-insensitive). -/
def is_valid_image (env : Env) (path : FsPath) : Bool :=
  env.isFile path && VALID_IMAGE_SUFFIXES.contains (str_lower path.suffix)

/-- `check_wall(wall, filter_size, threshold)`: decode the image (a decode
error escapes to the caller) and compare both dimensions, independently and
non-strictly, against `threshold` times the filter size. -/
def check_wall (env : Env) (wall : FsPath) (filter_size : Nat × Nat)
    (threshold : ℚ) : Except Err Bool :=
  match env.decodeRGB wall with
  | none => .error .decodeError
  | some img =>
    .ok (decide ((img.width : ℚ) ≥ (filter_size.1 : ℚ) * threshold ∧
                 (img.height : ℚ) ≥ (filter_size.2 : ℚ) * threshold))

/-- Effectful filter for a Python list comprehension whose predicate can
raise: evaluated left to right, the first exception escapes. -/
def filterE {α : Type} (p : α → Except Err Bool) : List α → Except Err (List α)
  | [] => .ok []
  | x :: xs =>
    match p x with
    | .error e => .error e
    | .ok b =>
      match filterE p xs with
      | .error e => .error e
      | .ok rest => .ok (if b then x :: rest else rest)

/-- `min` of a nonempty sequence, head plus tail. -/
def natMin (x : Nat) (xs : List Nat) : Nat :=
  xs.foldl Nat.min x

/-- The enumeration part of `get_wallpapers`: every entry under the scan root
(as `dir.rglob("*")` yields it, i.e. the root path joined with the relative
sub-path) that passes `is_valid_image`. -/
def candidate_walls (env : Env) (args : Args) : List FsPath :=
  ((env.tree args.random).map (fun rel => args.random.join rel)).filter
    (fun f => is_valid_image env f)

/-- `get_wallpapers(args)`: empty if the root is not a directory; the full
candidate list when filtering is disabled; otherwise the candidates whose
dimensions pass `check_wall` against the minimum monitor width and height
(`min()` of an empty monitor sequence raises). -/
def get_wallpapers (env : Env) (args : Args) : Except Err (List FsPath) :=
  if env.isDir args.random = false then .ok []
  else
    let walls := candidate_walls env args
    if args.no_filter then .ok walls
    else
      match env.monitors with
      | [] => .error .emptySeqError
      | m :: ms =>
        let filter_size :=
          (natMin m.width (ms.map Monitor.width),
           natMin m.height (ms.map Monitor.height))
        filterE (fun f => check_wall env f filter_size args.threshold) walls

/-- The cache directory for a wallpaper:
`wallpapers_cache_dir / compute_hash(wall)`. -/
def cache_dir_for (env : Env) (wall : FsPath) : FsPath :=
  env.wallpapersCacheDir.join [env.hashOf wall]

/-- `get_thumb(wall, cache)`: if `cache/"thumbnail.jpg"` exists, return that
path untouched; otherwise decode the wallpaper (a decode error escapes),
downscale it (`img.thumbnail((128, 128), Image.NEAREST)` followed by the JPEG
save, abstracted by the external `thumbnailOf` operation), persist it under
the cache directory and return the path. -/
def get_thumb (env : Env) (wall cacheDir : FsPath) (w : World) :
    Except Err FsPath × World :=
  let thumb := cacheDir.join ["thumbnail.jpg"]
  match (w.cache cacheDir).thumb with
  | some _ => (.ok thumb, w)
  | none =>
    match env.decodeRGB wall with
    | none => (.error .decodeError, w)
    | some img =>
      let t := env.thumbnailOf img
      (.ok thumb, w.setCache cacheDir { w.cache cacheDir with thumb := some t })

/-- `get_smart_opts(wall, cache)`: return the parsed `smart.json` if readable;
otherwise obtain the thumbnail (errors escape), classify its variant with the
external colourfulness classifier, compute the tone of the 1×1 LANCZOS
downscale of the thumbnail (the downscale, `argb_from_rgb` and `Hct.from_int`
are external, packaged as the `tone` oracle), classify the mode with the
strict `tone > 60` comparison, persist and return. -/
def get_smart_opts (env : Env) (wall cacheDir : FsPath) (w : World) :
    Except Err SmartOpts × World :=
  match (w.cache cacheDir).smartOpts with
  | some opts => (.ok opts, w)
  | none =>
    match get_thumb env wall cacheDir w with
    | (.error e, w') => (.error e, w')
    | (.ok _, w') =>
      match (w'.cache cacheDir).thumb with
      | none => (.error .decodeError, w')
      | some t =>
        let opts : SmartOpts :=
          { variant := env.getVariant t
            mode := if env.tone t > 60 then "light" else "dark" }
        (.ok opts,
         w'.setCache cacheDir { w'.cache cacheDir with smartOpts := some opts })

/-- Lines 207–212 of `set_wallpaper`: overwrite the current-wallpaper text
file and re-create the wallpaper symlink. -/
def update_wallpaper_pointers (wall : FsPath) (w : World) : World :=
  { w with wallpaperPathFile := some wall, wallpaperLink := some wall }

/-- Lines 216–221 of `set_wallpaper`: read the cached animated metadata; when
missing/falsy, extract it from the image and persist it only when
`is_animated` is truthy. -/
def update_animated_metadata (env : Env) (wall cacheDir : FsPath) (w : World) :
    World :=
  match (w.cache cacheDir).animatedMeta with
  | some _ => w
  | none =>
    let metadata := _extract_animated_metadata (env.decodeInfo wall)
    if metadata.is_animated then
      w.setCache cacheDir { w.cache cacheDir with animatedMeta := some metadata }
    else w

/-- Lines 229–235 of `set_wallpaper`: load the scheme and, when it is the
dynamic scheme and smart derivation is enabled, overwrite its mode/variant
with the derived smart options (whose computation can raise). -/
def apply_smart_scheme (env : Env) (wall cacheDir : FsPath) (no_smart : Bool)
    (w : World) : Except Err Scheme × World :=
  let scheme := env.scheme
  if scheme.name = "dynamic" ∧ no_smart = false then
    match get_smart_opts env wall cacheDir w with
    | (.error e, w') => (.error e, w')
    | (.ok opts, w') =>
      (.ok { scheme with mode := opts.mode, variant := opts.variant }, w')
  else (.ok scheme, w)

/-- Whether every element of a JSON array is a string.  `subprocess` on
POSIX converts a sequence argument with `list(args)` and validates each
element as a string while spawning, so an array of strings runs (the first
element becomes the shell command) while an array containing any non-string
element raises `TypeError` in the parent. -/
def allStrings : List JValue → Bool
  | [] => true
  | .str _ :: rest => allStrings rest
  | _ :: _ => false

/-- Lines 242–252 of `set_wallpaper`: read and parse the user config, and run
the configured post-hook; only `FileNotFoundError` and `json.JSONDecodeError`
are caught.  A parsed config whose top level is not an object makes
`.get("wallpaper", {})` raise `AttributeError`; likewise a non-object
`wallpaper` entry at `cfg.get("postHook")`.  `subprocess.run(…, shell=True)`
on POSIX accepts a string (run as the shell command), a sequence whose
elements are all strings (the first element becomes the shell command), or a
mapping (iterated as its keys, which in JSON are always strings) — and a
completed run without `check=True` never raises, whatever the hook's exit
status; a truthy number or boolean, or a sequence containing a non-string
element, raises `TypeError` inside `subprocess.run`.  `hookRan` records the
configured hook value handed to `subprocess.run` together with the
`WALLPAPER_PATH` environment value. -/
def run_post_hook (env : Env) (wall : FsPath) (w : World) :
    Except Err Unit × World :=
  match env.userConfig with
  | .missing => (.ok (), w)
  | .unparsable => (.ok (), w)
  | .parsed v =>
    match v with
    | .obj fields =>
      match (jLookup fields "wallpaper").getD (JValue.obj []) with
      | .obj cfgFields =>
        match jLookup cfgFields "postHook" with
        | none => (.ok (), w)
        | some ph =>
          if jTruthy ph then
            match ph with
            | .str _ => (.ok (), { w with hookRan := some (ph, wall) })
            | .arr xs =>
              if allStrings xs then
                (.ok (), { w with hookRan := some (ph, wall) })
              else (.error .typeError, w)
            | .obj _ => (.ok (), { w with hookRan := some (ph, wall) })
            | _ => (.error .typeError, w)
          else (.ok (), w)
      | _ => (.error .attributeError, w)
    | _ => (.error .attributeError, w)

/-- The exact condition under which `run_post_hook` completes without an
exception, as a boolean on the config-read outcome. -/
def hook_ok (c : ConfigRead) : Bool :=
  match c with
  | .missing => true
  | .unparsable => true
  | .parsed v =>
    match v with
    | .obj fields =>
      match (jLookup fields "wallpaper").getD (JValue.obj []) with
      | .obj cfgFields =>
        match jLookup cfgFields "postHook" with
        | none => true
        | some ph =>
          if jTruthy ph then
            match ph with
            | .str _ => true
            | .arr xs => allStrings xs
            | .obj _ => true
            | _ => false
          else true
      | _ => false
    | _ => false

/-- Lines 225–252 of `set_wallpaper`, from the point where the thumbnail path
is in hand: replace the thumbnail symlink, derive/apply the colour scheme
(`scheme.update_colours()` is the external `computeColours`;
`apply_colours(scheme.colours, scheme.mode)` is recorded in
`appliedColours`), then run the post-hook. -/
def activation_tail (env : Env) (wall cacheDir : FsPath) (no_smart : Bool)
    (thumb : FsPath) (w3 : World) : Except Err Unit × World :=
  let w4 := { w3 with thumbnailLink := some thumb }
  match apply_smart_scheme env wall cacheDir no_smart w4 with
  | (.error e, w5) => (.error e, w5)
  | (.ok scheme2, w5) =>
    let scheme3 := { scheme2 with colours := env.computeColours scheme2 }
    let w6 := { w5 with schemeOut := some scheme3,
                        appliedColours := some (scheme3.colours, scheme3.mode) }
    run_post_hook env wall w6

/-- `set_wallpaper(wall, no_smart)`: resolve the path, reject invalid images,
update the pointer artifacts, ensure the animated metadata, ensure the
thumbnail, then run the remaining steps (`activation_tail`). -/
def set_wallpaper (env : Env) (wall0 : FsPath) (no_smart : Bool) (w : World) :
    Except Err Unit × World :=
  let wall := resolve env.cwd wall0
  if is_valid_image env wall = false then (.error .invalidImage, w)
  else
    let w1 := update_wallpaper_pointers wall w
    let cacheDir := cache_dir_for env wall
    let w2 := update_animated_metadata env wall cacheDir w1
    match get_thumb env wall cacheDir w2 with
    | (.error e, w3) => (.error e, w3)
    | (.ok thumb, w3) => activation_tail env wall cacheDir no_smart thumb w3

/-- `list.remove(a)`: drop the first occurrence; the `ValueError` the real
method raises when the element is absent is caught by the caller's
`except (FileNotFoundError, ValueError)`, after which the list is unchanged,
which is exactly what returning the list unmodified models. -/
def removeFirst (xs : List FsPath) (a : FsPath) : List FsPath :=
  match xs with
  | [] => []
  | x :: rest => if x = a then rest else x :: removeFirst rest a

/-- `set_random(args)`: enumerate candidates (errors escape); raise on an
empty list; then, inside `try … except (FileNotFoundError, ValueError)`, read
the current-wallpaper pointer and remove it from the list — note that the
`raise ValueError("Only valid wallpaper is current")` inside that `try` block
is caught by the block's own `except` clause, so control always reaches
`random.choice(wallpapers)`, which raises `IndexError` when the removal
emptied the list. -/
def set_random (env : Env) (args : Args) (w : World) : Except Err Unit × World :=
  match get_wallpapers env args with
  | .error e => (.error e, w)
  | .ok wallpapers =>
    if wallpapers.isEmpty then (.error .noWallpapers, w)
    else
      let wallpapers2 :=
        match w.wallpaperPathFile with
        | none => wallpapers
        | some last_wall => removeFirst wallpapers last_wall
      match wallpapers2 with
      | [] => (.error .indexError, w)
      | x :: xs =>
        set_wallpaper env
          ((x :: xs).get ⟨env.choiceIdx % (x :: xs).length,
            Nat.mod_lt _ (Nat.succ_pos _)⟩)
          args.no_smart w

/-! Concrete fixtures used to evaluate the theorems on explicit inputs. -/

/-- A cache directory with none of the three artifacts present. -/
def emptyCacheEntry : WallCache :=
  { animatedMeta := none, thumb := none, smartOpts := none }

/-- A world with no pointers and an empty cache tree. -/
def w0 : World :=
  { wallpaperPathFile := none, wallpaperLink := none, thumbnailLink := none,
    cache := fun _ => emptyCacheEntry, schemeOut := none,
    appliedColours := none, hookRan := none }

/-- The dynamic colour scheme fixture. -/
def schemeDyn : Scheme :=
  { name := "dynamic", flavour := "default", mode := "dark",
    variant := "tonal", colours := "c0" }

/-- An absolute scan root containing one valid image. -/
def rootAbs : FsPath := { absolute := true, components := ["walls"] }

/-- The one valid image under `rootAbs`. -/
def imgA : FsPath := { absolute := true, components := ["walls", "a.png"] }

/-- A static 500×400 decoded image. -/
def rgbA : Img := { width := 500, height := 400, data := 7 }

/-- Base environment fixture: `imgA` is the only regular file, it decodes as
a static PNG, tone of any thumbnail is exactly 60, config file missing. -/
def baseEnv : Env :=
  { cwd := ["home"]
    isFile := fun p => decide (p = imgA)
    isDir := fun p => decide (p = rootAbs)
    tree := fun p => if p = rootAbs then [["a.png"]] else []
    decodeInfo := fun _ => some
      { is_animated := false, n_frames := 1, format := some "PNG",
        duration := none, loop := none }
    decodeRGB := fun _ => some rgbA
    thumbnailOf := fun img => { width := 128, height := 102, data := img.data + 1 }
    getVariant := fun _ => "tonal"
    tone := fun _ => 60
    hashOf := fun _ => "h1"
    wallpapersCacheDir := { absolute := true, components := ["cache"] }
    monitors := [{ width := 800, height := 600 }, { width := 1920, height := 1080 }]
    scheme := schemeDyn
    computeColours := fun _ => "c1"
    userConfig := ConfigRead.missing
    choiceIdx := 0 }

/-- The cache directory `baseEnv` assigns to `imgA`. -/
def cdA : FsPath := { absolute := true, components := ["cache", "h1"] }

/-- The thumbnail raster fixture cached under `cdA`. -/
def thumbA : Img := { width := 128, height := 102, data := 8 }

/-- A world whose cache holds a thumbnail for `cdA` and nothing else. -/
def wThumb : World :=
  { w0 with cache := fun k =>
      if k = cdA then
        { animatedMeta := none, thumb := some thumbA, smartOpts := none }
      else emptyCacheEntry }

/-- An environment in which the source image has been deleted: nothing is a
regular file and nothing decodes. -/
def envDeleted : Env :=
  { baseEnv with isFile := fun _ => false, decodeRGB := fun _ => none }

/-- An environment in which the fixture image exists and has a valid
extension but its content fails to decode. -/
def envNoDecode : Env := { baseEnv with decodeRGB := fun _ => none }

/-- An invalid wallpaper path (unsupported extension, not a regular file). -/
def imgBad : FsPath := { absolute := true, components := ["walls", "a.txt"] }

/-- An environment whose user config parses to a JSON array. -/
def envArrCfg : Env :=
  { baseEnv with userConfig := ConfigRead.parsed (JValue.arr []) }

/-- Selector arguments: scan `rootAbs`, resolution filter disabled. -/
def argsRand : Args :=
  { random := rootAbs, no_filter := true, threshold := 1 / 2, no_smart := true }

/-- A world whose current-wallpaper pointer file names `imgA`. -/
def wCurrent : World := { w0 with wallpaperPathFile := some imgA }

/-- A second candidate image of size 300×200 under `rootAbs`. -/
def imgB : FsPath := { absolute := true, components := ["walls", "b.png"] }

/-- Environment with two candidates: `imgA` decodes at 500×400 and `imgB` at
300×200; monitors are 800×600 and 1920×1080. -/
def envTwo : Env :=
  { baseEnv with
    isFile := fun p => decide (p = imgA ∨ p = imgB)
    tree := fun p => if p = rootAbs then [["a.png"], ["b.png"]] else []
    decodeRGB := fun p =>
      if p = imgA then some rgbA
      else if p = imgB then some { width := 300, height := 200, data := 9 }
      else none }

/-- Selector arguments with the resolution filter enabled at threshold
one half. -/
def argsFilter : Args :=
  { random := rootAbs, no_filter := false, threshold := 1 / 2,
    no_smart := true }

/-- A relative scan root and its one candidate, as `rglob` yields it. -/
def rootRel : FsPath := { absolute := false, components := ["walls"] }

/-- The candidate under `rootRel`, a relative path. -/
def imgARel : FsPath := { absolute := false, components := ["walls", "a.png"] }

/-- Environment whose filesystem is rooted at the relative `rootRel`. -/
def envRel : Env :=
  { baseEnv with
    isFile := fun p => decide (p = imgARel)
    isDir := fun p => decide (p = rootRel)
    tree := fun p => if p = rootRel then [["a.png"]] else [] }

/-- Selector arguments scanning the relative root, filter disabled. -/
def argsRel : Args :=
  { random := rootRel, no_filter := true, threshold := 1 / 2,
    no_smart := true }

/-! Helper lemmas about the embedding, shared by the claim theorems. -/

theorem setCache_cache (w : World) (d k : FsPath) (e : WallCache) :
    (w.setCache d e).cache k = if k = d then e else w.cache k := rfl

theorem update_wallpaper_pointers_cache (wall : FsPath) (w : World) :
    (update_wallpaper_pointers wall w).cache = w.cache := rfl

theorem update_animated_metadata_thumb (env : Env) (wall cd : FsPath)
    (w : World) (d : FsPath) :
    ((update_animated_metadata env wall cd w).cache d).thumb =
      (w.cache d).thumb := by
  unfold update_animated_metadata
  split
  · rfl
  · dsimp only
    split
    · rw [setCache_cache]
      split
      · next hdk => rw [hdk]
      · rfl
    · rfl

theorem update_animated_metadata_smartOpts (env : Env) (wall cd : FsPath)
    (w : World) (d : FsPath) :
    ((update_animated_metadata env wall cd w).cache d).smartOpts =
      (w.cache d).smartOpts := by
  unfold update_animated_metadata
  split
  · rfl
  · dsimp only
    split
    · rw [setCache_cache]
      split
      · next hdk => rw [hdk]
      · rfl
    · rfl

theorem update_animated_metadata_id_of_static (env : Env) (wall cd : FsPath)
    (w : World)
    (h : (_extract_animated_metadata (env.decodeInfo wall)).is_animated = false) :
    update_animated_metadata env wall cd w = w := by
  unfold update_animated_metadata
  split
  · rfl
  · simp [h]

theorem get_thumb_cached (env : Env) (wall cd : FsPath) (w : World)
    (h : ((w.cache cd).thumb).isSome = true) :
    get_thumb env wall cd w = (Except.ok (cd.join ["thumbnail.jpg"]), w) := by
  unfold get_thumb
  split
  · rfl
  · next hnone => rw [hnone] at h; simp at h

theorem get_thumb_ok_elim (env : Env) (wall cd : FsPath) (w : World)
    (p : FsPath) (w' : World)
    (h : get_thumb env wall cd w = (Except.ok p, w')) :
    p = cd.join ["thumbnail.jpg"] ∧ ((w'.cache cd).thumb).isSome = true ∧
      (((w.cache cd).thumb).isSome = true ∨ (env.decodeRGB wall).isSome = true) := by
  unfold get_thumb at h
  split at h
  · next t ht =>
    obtain ⟨hp, hw⟩ := Prod.mk.injEq .. ▸ h
    refine ⟨(Except.ok.injEq .. ▸ hp).symm, ?_, Or.inl (by rw [ht]; rfl)⟩
    rw [← hw, ht]; rfl
  · next hnone =>
    split at h
    · exact absurd h (by simp)
    · next img himg =>
      obtain ⟨hp, hw⟩ := Prod.mk.injEq .. ▸ h
      refine ⟨(Except.ok.injEq .. ▸ hp).symm, ?_, Or.inr (by rw [himg]; rfl)⟩
      rw [← hw, setCache_cache]
      simp

theorem get_thumb_error_elim (env : Env) (wall cd : FsPath) (w : World)
    (e : Err) (w' : World)
    (h : get_thumb env wall cd w = (Except.error e, w')) :
    e = Err.decodeError ∧ w' = w ∧ (w.cache cd).thumb = none ∧
      env.decodeRGB wall = none := by
  unfold get_thumb at h
  split at h
  · exact absurd h (by simp)
  · next hnone =>
    split at h
    · next hdec =>
      obtain ⟨he, hw⟩ := Prod.mk.injEq .. ▸ h
      exact ⟨(Except.error.injEq .. ▸ he).symm, hw.symm, hnone, hdec⟩
    · exact absurd h (by simp)

theorem get_thumb_snd_animatedMeta (env : Env) (wall cd : FsPath) (w : World)
    (d : FsPath) :
    (((get_thumb env wall cd w).2).cache d).animatedMeta =
      (w.cache d).animatedMeta := by
  unfold get_thumb
  split
  · rfl
  · split
    · rfl
    · simp only [World.setCache]
      split
      · next hdk => rw [hdk]
      · rfl

theorem get_smart_opts_ok_of_thumb (env : Env) (wall cd : FsPath) (w : World)
    (h : ((w.cache cd).thumb).isSome = true) :
    ∃ o w', get_smart_opts env wall cd w = (Except.ok o, w') := by
  unfold get_smart_opts
  split
  · exact ⟨_, _, rfl⟩
  · rw [get_thumb_cached env wall cd w h]
    dsimp only
    split
    · next hnone => rw [hnone] at h; simp at h
    · exact ⟨_, _, rfl⟩

theorem get_smart_opts_snd_animatedMeta (env : Env) (wall cd : FsPath)
    (w : World) (d : FsPath) :
    (((get_smart_opts env wall cd w).2).cache d).animatedMeta =
      (w.cache d).animatedMeta := by
  unfold get_smart_opts
  split
  · rfl
  · have hthumb := get_thumb_snd_animatedMeta env wall cd w d
    rcases hgt : get_thumb env wall cd w with ⟨res, w'⟩
    rw [hgt] at hthumb
    cases res with
    | error e => exact hthumb
    | ok p =>
      dsimp only
      split
      · exact hthumb
      · rw [setCache_cache]
        split
        · next hdk => subst hdk; exact hthumb
        · exact hthumb

theorem apply_smart_scheme_ok_of_thumb (env : Env) (wall cd : FsPath)
    (ns : Bool) (w : World) (h : ((w.cache cd).thumb).isSome = true) :
    ∃ s w', apply_smart_scheme env wall cd ns w = (Except.ok s, w') := by
  unfold apply_smart_scheme
  dsimp only
  by_cases hc : env.scheme.name = "dynamic" ∧ ns = false
  · rw [if_pos hc]
    obtain ⟨o, w', ho⟩ := get_smart_opts_ok_of_thumb env wall cd w h
    rw [ho]
    exact ⟨_, _, rfl⟩
  · rw [if_neg hc]
    exact ⟨_, _, rfl⟩

theorem apply_smart_scheme_snd_animatedMeta (env : Env) (wall cd : FsPath)
    (ns : Bool) (w : World) (d : FsPath) :
    (((apply_smart_scheme env wall cd ns w).2).cache d).animatedMeta =
      (w.cache d).animatedMeta := by
  unfold apply_smart_scheme
  dsimp only
  by_cases hc : env.scheme.name = "dynamic" ∧ ns = false
  · rw [if_pos hc]
    have hso := get_smart_opts_snd_animatedMeta env wall cd w d
    rcases hgs : get_smart_opts env wall cd w with ⟨res, w'⟩
    rw [hgs] at hso
    cases res with
    | error e => exact hso
    | ok o => exact hso
  · rw [if_neg hc]

theorem run_post_hook_snd_cache (env : Env) (wall : FsPath) (w : World) :
    ((run_post_hook env wall w).2).cache = w.cache := by
  unfold run_post_hook
  rcases env.userConfig with _ | _ | v
  · rfl
  · rfl
  · rcases v with _ | b | n | s | xs | fields <;> try rfl
    dsimp only
    repeat' split
    all_goals rfl

theorem run_post_hook_ok_iff (env : Env) (wall : FsPath) (w : World) :
    ((run_post_hook env wall w).1 = Except.ok ()) ↔
      hook_ok env.userConfig = true := by
  unfold run_post_hook hook_ok
  rcases env.userConfig with _ | _ | v
  · simp
  · simp
  · rcases v with _ | b | n | s | xs | fields
    · simp
    · simp
    · simp
    · simp
    · simp
    · dsimp only
      repeat' split
      all_goals simp_all

theorem filterE_eq_filter {α : Type} (p : α → Except Err Bool) (l : List α)
    (h : ∀ x ∈ l, ∃ b, p x = Except.ok b) :
    filterE p l = Except.ok (l.filter (fun x =>
      match p x with
      | Except.ok b => b
      | Except.error _ => false)) := by
  induction l with
  | nil => rfl
  | cons x xs ih =>
    obtain ⟨b, hb⟩ := h x (List.mem_cons_self x xs)
    have hxs := ih (fun y hy => h y (List.mem_cons_of_mem _ hy))
    unfold filterE
    rw [hb, hxs, List.filter_cons]
    cases b <;> simp [hb]

theorem filterE_subset {α : Type} (p : α → Except Err Bool) :
    ∀ (l r : List α), filterE p l = Except.ok r → ∀ x ∈ r, x ∈ l := by
  intro l
  induction l with
  | nil =>
    intro r h x hx
    unfold filterE at h
    cases h
    simp at hx
  | cons y ys ih =>
    intro r h x hx
    unfold filterE at h
    split at h
    · exact absurd h (by simp)
    · split at h
      · exact absurd h (by simp)
      · next rest hrest =>
        cases h
        split at hx
        · rcases List.mem_cons.mp hx with hxy | hxr
          · exact hxy ▸ List.mem_cons_self y ys
          · exact List.mem_cons_of_mem _ (ih rest hrest x hxr)
        · exact List.mem_cons_of_mem _ (ih rest hrest x hx)

theorem removeFirst_of_not_mem (xs : List FsPath) (a : FsPath) (h : a ∉ xs) :
    removeFirst xs a = xs := by
  induction xs with
  | nil => rfl
  | cons x rest ih =>
    unfold removeFirst
    rw [if_neg (fun hxa : x = a => h (hxa ▸ List.mem_cons_self x rest)),
        ih (fun hm => h (List.mem_cons_of_mem _ hm))]

theorem candidate_walls_relative (env : Env) (args : Args)
    (h : args.random.absolute = false) :
    ∀ c ∈ candidate_walls env args, c.absolute = false := by
  intro c hc
  unfold candidate_walls at hc
  obtain ⟨hc', _⟩ := List.mem_filter.mp hc
  obtain ⟨rel, _, hrel⟩ := List.mem_map.mp hc'
  rw [← hrel]
  simpa [FsPath.join] using h

theorem get_wallpapers_subset (env : Env) (args : Args) (l : List FsPath)
    (h : get_wallpapers env args = Except.ok l) :
    ∀ c ∈ l, c ∈ candidate_walls env args := by
  unfold get_wallpapers at h
  split at h
  · cases h
    intro c hc
    simp at hc
  · dsimp only at h
    split at h
    · cases h
      exact fun c hc => hc
    · split at h
      · exact absurd h (by simp)
      · exact fun c hc => filterE_subset _ _ _ h c hc

theorem activation_tail_snd_animatedMeta (env : Env) (wall cd : FsPath)
    (ns : Bool) (thumb : FsPath) (w3 : World) (d : FsPath) :
    (((activation_tail env wall cd ns thumb w3).2).cache d).animatedMeta =
      (w3.cache d).animatedMeta := by
  unfold activation_tail
  dsimp only
  have hsm := apply_smart_scheme_snd_animatedMeta env wall cd ns
    { w3 with thumbnailLink := some thumb } d
  rcases hsm2 : apply_smart_scheme env wall cd ns
      { w3 with thumbnailLink := some thumb } with ⟨res2, w5⟩
  rw [hsm2] at hsm
  cases res2 with
  | error e => exact hsm
  | ok s2 =>
    dsimp only
    rw [run_post_hook_snd_cache]
    exact hsm

theorem activation_tail_ok_iff (env : Env) (wall cd : FsPath) (ns : Bool)
    (thumb : FsPath) (w3 : World)
    (h : ((w3.cache cd).thumb).isSome = true) :
    ((activation_tail env wall cd ns thumb w3).1 = Except.ok ()) ↔
      hook_ok env.userConfig = true := by
  unfold activation_tail
  dsimp only
  obtain ⟨s, w5, hs⟩ := apply_smart_scheme_ok_of_thumb env wall cd ns
    { w3 with thumbnailLink := some thumb } h
  rw [hs]
  dsimp only
  exact run_post_hook_ok_iff env wall _

/-! Claim C3. -/

/-- C3 counterexample: for an image whose info dictionary has no
`"duration"` key, `_extract_animated_metadata` reports
`frame_duration_ms = 0` (the `img.info.get("duration", 0)` default), not
null as the claim states for an unavailable duration. -/
theorem frame_duration_ms_zero_when_duration_absent :
    (_extract_animated_metadata (some
      { is_animated := false, n_frames := 1, format := some "PNG",
        duration := none, loop := none })).frame_duration_ms = some 0 := rfl

/-- C3 (amended): `frame_duration_ms` is `int()` of the reported duration
when that value is numeric (an int, or a float truncated toward zero), null
when it is non-numeric or when decoding fails; when the duration key is
absent it is the default 0, not null. -/
theorem frame_duration_ms_characterization (i : ImgInfo) :
    ((∀ n : Int, i.duration = some (PyVal.int n) →
        (_extract_animated_metadata (some i)).frame_duration_ms = some n)
     ∧ (∀ q : ℚ, i.duration = some (PyVal.float q) →
        (_extract_animated_metadata (some i)).frame_duration_ms =
          some (pyTrunc q))
     ∧ (∀ t : Bool, i.duration = some (PyVal.nonNumeric t) →
        (_extract_animated_metadata (some i)).frame_duration_ms = none)
     ∧ (i.duration = none →
        (_extract_animated_metadata (some i)).frame_duration_ms = some 0))
    ∧ (_extract_animated_metadata none).frame_duration_ms = none := by
  refine ⟨⟨fun n h => ?_, fun q h => ?_, fun t h => ?_, fun h => ?_⟩, rfl⟩ <;>
    simp [_extract_animated_metadata, h]

/-- C3 witness: the characterization evaluated on a concrete animated image
with an integer duration of 40 ms. -/
theorem frame_duration_ms_characterization_witness :
    (_extract_animated_metadata (some
      { is_animated := true, n_frames := 2, format := some "GIF",
        duration := some (PyVal.int 40),
        loop := some (PyVal.int 0) })).frame_duration_ms = some 40 :=
  (frame_duration_ms_characterization _).1.1 40 rfl

/-! Claim C5. -/

/-- C5 counterexample: an animated image with 3 frames and no reported
duration yields `frame_duration_ms = 0` and `frame_count = 3` — both fields
present and numeric — yet `total_duration_ms` is null, where the claim
demands `0 * 3 = 0`.  (The code computes the product only when the raw
duration is truthy.) -/
theorem total_duration_ms_none_despite_numeric_fields :
    ((_extract_animated_metadata (some
      { is_animated := true, n_frames := 3, format := some "GIF",
        duration := none, loop := none })).frame_duration_ms = some 0)
    ∧ ((_extract_animated_metadata (some
      { is_animated := true, n_frames := 3, format := some "GIF",
        duration := none, loop := none })).n_frames = 3)
    ∧ ((_extract_animated_metadata (some
      { is_animated := true, n_frames := 3, format := some "GIF",
        duration := none, loop := none })).total_duration_ms = none) :=
  ⟨rfl, rfl, rfl⟩

/-- C5 (amended): `total_duration_ms` is `int(duration) * frame_count` only
when the image is animated, the raw reported duration is a truthy (nonzero)
number — integer, or float truncated toward zero — and the frame count is
nonzero; it is null in every other case: image not animated, duration key
absent (its default 0 is falsy), duration present but zero (int or float),
duration non-numeric (even when truthy — `int()` raises and the `except`
leaves the product unset), frame count zero, or decode failure.  Nothing
raises, and Python integers cannot overflow. -/
theorem total_duration_ms_characterization (i : ImgInfo) (k : Int) (q : ℚ)
    (n : Nat) (t : Bool) :
    ((i.is_animated = true → i.n_frames = n → n ≠ 0 →
        ((i.duration = some (PyVal.int k) → k ≠ 0 →
            (_extract_animated_metadata (some i)).total_duration_ms =
              some (k * (n : Int)))
         ∧ (i.duration = some (PyVal.float q) → q ≠ 0 →
            (_extract_animated_metadata (some i)).total_duration_ms =
              some (pyTrunc q * (n : Int)))))
     ∧ (i.is_animated = false →
        (_extract_animated_metadata (some i)).total_duration_ms = none)
     ∧ (i.duration = none →
        (_extract_animated_metadata (some i)).total_duration_ms = none)
     ∧ (i.duration = some (PyVal.int 0) →
        (_extract_animated_metadata (some i)).total_duration_ms = none)
     ∧ (i.duration = some (PyVal.float 0) →
        (_extract_animated_metadata (some i)).total_duration_ms = none)
     ∧ (i.duration = some (PyVal.nonNumeric t) →
        (_extract_animated_metadata (some i)).total_duration_ms = none)
     ∧ (i.is_animated = true → i.n_frames = 0 →
        (_extract_animated_metadata (some i)).total_duration_ms = none))
    ∧ (_extract_animated_metadata none).total_duration_ms = none := by
  refine ⟨⟨fun ha hn hn0 => ⟨fun hd hk => ?_, fun hd hq => ?_⟩, fun ha => ?_,
    fun hd => ?_, fun hd => ?_, fun hd => ?_, fun hd => ?_,
    fun ha h0 => ?_⟩, rfl⟩
  · simp [_extract_animated_metadata, ha, hn, hd, pyTruthy, pyToInt, hk, hn0]
  · simp [_extract_animated_metadata, ha, hn, hd, pyTruthy, pyToInt, hq, hn0]
  · simp [_extract_animated_metadata, ha]
  · simp [_extract_animated_metadata, hd, pyTruthy]
  · simp [_extract_animated_metadata, hd, pyTruthy]
  · simp [_extract_animated_metadata, hd, pyTruthy]
  · simp [_extract_animated_metadata, hd, pyToInt]
  · simp [_extract_animated_metadata, ha, h0]

/-- C5 witness: the characterization evaluated on a concrete 2-frame image
with duration 40 ms: total duration 80 ms. -/
theorem total_duration_ms_characterization_witness :
    (_extract_animated_metadata (some
      { is_animated := true, n_frames := 2, format := some "GIF",
        duration := some (PyVal.int 40),
        loop := some (PyVal.int 0) })).total_duration_ms = some 80 :=
  ((total_duration_ms_characterization _ 40 0 2 false).1.1 rfl rfl
    (by decide)).1 rfl (by decide)

/-! Claim C7. -/

/-- C7: on a cache miss with the thumbnail available, `get_smart_opts`
classifies `mode` as light exactly when the tone of the representative pixel
is strictly greater than 60, dark otherwise; in particular a tone of exactly
60 classifies as dark. -/
theorem get_smart_opts_mode_threshold (env : Env) (wall cd : FsPath)
    (w : World) (t : Img)
    (h1 : (w.cache cd).smartOpts = none)
    (h2 : (w.cache cd).thumb = some t) :
    ((get_smart_opts env wall cd w).1 = Except.ok
        { variant := env.getVariant t,
          mode := if env.tone t > 60 then "light" else "dark" })
    ∧ (env.tone t = 60 →
       (get_smart_opts env wall cd w).1 = Except.ok
        { variant := env.getVariant t, mode := "dark" }) := by
  have hsome : ((w.cache cd).thumb).isSome = true := by rw [h2]; rfl
  have hmain : (get_smart_opts env wall cd w).1 = Except.ok
      { variant := env.getVariant t,
        mode := if env.tone t > 60 then "light" else "dark" } := by
    unfold get_smart_opts
    rw [h1, get_thumb_cached env wall cd w hsome]
    dsimp only
    rw [h2]
  refine ⟨hmain, fun htone => ?_⟩
  rw [hmain, htone]
  norm_num

/-- C7 witness: with the fixture tone of exactly 60, the derived mode is
dark. -/
theorem get_smart_opts_mode_threshold_witness :
    (get_smart_opts baseEnv imgA cdA wThumb).1 =
      Except.ok { variant := "tonal", mode := "dark" } :=
  (get_smart_opts_mode_threshold baseEnv imgA cdA wThumb thumbA rfl rfl).2 rfl

/-! Claim C8. -/

/-- C8: once the thumbnail artifact exists, `get_thumb` returns the cached
path with the state untouched, for any environment (so in particular without
consulting the decoder or the source file); and after any successful call, a
second call — under an arbitrary environment, e.g. one where the source file
has been deleted and no longer decodes — succeeds, returns the same path,
and leaves the state unchanged. -/
theorem get_thumb_memoization (env env2 : Env) (wall wall2 cd : FsPath)
    (w : World) :
    (((w.cache cd).thumb).isSome = true →
      get_thumb env wall cd w = (Except.ok (cd.join ["thumbnail.jpg"]), w))
    ∧ (∀ p w', get_thumb env wall cd w = (Except.ok p, w') →
      get_thumb env2 wall2 cd w' = (Except.ok p, w')) := by
  refine ⟨fun h => get_thumb_cached env wall cd w h, fun p w' h => ?_⟩
  obtain ⟨hp, hsome, _⟩ := get_thumb_ok_elim env wall cd w p w' h
  rw [hp]
  exact get_thumb_cached env2 wall2 cd w' hsome

/-- C8 witness: generate the thumbnail once with `baseEnv`, then call again
after the source is deleted: the second call still succeeds, returns the
same cached path and does not change the state. -/
theorem get_thumb_memoization_witness :
    get_thumb envDeleted imgA cdA ((get_thumb baseEnv imgA cdA w0).2) =
      (Except.ok (cdA.join ["thumbnail.jpg"]),
       (get_thumb baseEnv imgA cdA w0).2) :=
  (get_thumb_memoization baseEnv envDeleted imgA imgA cdA w0).2
    (cdA.join ["thumbnail.jpg"]) ((get_thumb baseEnv imgA cdA w0).2) rfl

/-! Claim C6. -/

/-- C6: activating a wallpaper whose extracted metadata is not animated
(including the decode-failure default) leaves the `animated_meta.json`
artifact of every cache directory exactly as it was — in particular it never
creates one. -/
theorem static_image_preserves_animated_meta (env : Env) (wall0 : FsPath)
    (ns : Bool) (w : World) (d : FsPath)
    (h : (_extract_animated_metadata
        (env.decodeInfo (resolve env.cwd wall0))).is_animated = false) :
    (((set_wallpaper env wall0 ns w).2).cache d).animatedMeta =
      (w.cache d).animatedMeta := by
  unfold set_wallpaper
  dsimp only
  by_cases hv : is_valid_image env (resolve env.cwd wall0) = false
  · rw [if_pos hv]
  · rw [if_neg hv,
        update_animated_metadata_id_of_static env (resolve env.cwd wall0)
          (cache_dir_for env (resolve env.cwd wall0))
          (update_wallpaper_pointers (resolve env.cwd wall0) w) h]
    have hgm := get_thumb_snd_animatedMeta env (resolve env.cwd wall0)
      (cache_dir_for env (resolve env.cwd wall0))
      (update_wallpaper_pointers (resolve env.cwd wall0) w) d
    rcases hgt : get_thumb env (resolve env.cwd wall0)
        (cache_dir_for env (resolve env.cwd wall0))
        (update_wallpaper_pointers (resolve env.cwd wall0) w) with ⟨res, w3⟩
    rw [hgt] at hgm
    cases res with
    | error e => exact hgm
    | ok thumb =>
      dsimp only
      rw [activation_tail_snd_animatedMeta]
      exact hgm

/-- C6 witness: activating the static fixture image on the empty world does
not create an `animated_meta.json` in its cache directory. -/
theorem static_image_preserves_animated_meta_witness :
    (((set_wallpaper baseEnv imgA false w0).2).cache cdA).animatedMeta =
      none :=
  (static_image_preserves_animated_meta baseEnv imgA false w0 cdA rfl).trans
    rfl

/-! Claim C2. -/

/-- C2 counterexample: a path that passes the validity check but whose
content fails to decode aborts the activation at the thumbnail step with a
decode error — not an `InvalidImageError` — and it does so after the pointer
file was already overwritten, contradicting the claim that the validity
check is the only abort point. -/
theorem set_wallpaper_decode_abort_after_mutation :
    ((set_wallpaper envNoDecode imgA true w0).1 =
        Except.error Err.decodeError)
    ∧ ((set_wallpaper envNoDecode imgA true w0).2.wallpaperPathFile =
        some imgA) := ⟨rfl, rfl⟩

/-- C2 (amended): activation aborts with `InvalidImageError` at the validity
check, before any mutation; beyond that it can abort only at thumbnail
generation (no cached thumbnail and the image fails to decode) and at the
post-hook step (a parsed config whose top level or `wallpaper` entry is not
a JSON object, or a truthy hook value `subprocess.run` rejects — a number,
boolean, or array with a non-string element — i.e. exactly `¬ hook_ok`); the
metadata step and — once a thumbnail exists — the smart-option and theme
steps never abort. -/
theorem set_wallpaper_abort_points (env : Env) (wall0 : FsPath) (ns : Bool)
    (w : World) :
    ((set_wallpaper env wall0 ns w).1 = Except.ok () ↔
      (is_valid_image env (resolve env.cwd wall0) = true ∧
       (((w.cache (cache_dir_for env (resolve env.cwd wall0))).thumb).isSome
          = true ∨
        (env.decodeRGB (resolve env.cwd wall0)).isSome = true) ∧
       hook_ok env.userConfig = true))
    ∧ (is_valid_image env (resolve env.cwd wall0) = false →
        set_wallpaper env wall0 ns w = (Except.error Err.invalidImage, w)) := by
  constructor
  · by_cases hv : is_valid_image env (resolve env.cwd wall0) = false
    · unfold set_wallpaper
      dsimp only
      rw [if_pos hv]
      simp [hv]
    · have hvt : is_valid_image env (resolve env.cwd wall0) = true := by
        simpa using hv
      unfold set_wallpaper
      dsimp only
      rw [if_neg hv]
      have hthumb_pres : (((update_animated_metadata env (resolve env.cwd wall0)
          (cache_dir_for env (resolve env.cwd wall0))
          (update_wallpaper_pointers (resolve env.cwd wall0) w)).cache
          (cache_dir_for env (resolve env.cwd wall0))).thumb) =
          ((w.cache (cache_dir_for env (resolve env.cwd wall0))).thumb) := by
        rw [update_animated_metadata_thumb]
        rfl
      rcases hgt : get_thumb env (resolve env.cwd wall0)
          (cache_dir_for env (resolve env.cwd wall0))
          (update_animated_metadata env (resolve env.cwd wall0)
            (cache_dir_for env (resolve env.cwd wall0))
            (update_wallpaper_pointers (resolve env.cwd wall0) w))
          with ⟨res, w3⟩
      cases res with
      | error e =>
        obtain ⟨he, hw3, hnone, hdec⟩ := get_thumb_error_elim _ _ _ _ _ _ hgt
        dsimp only
        rw [hnone] at hthumb_pres
        simp [hvt, ← hthumb_pres, hdec]
      | ok thumb =>
        obtain ⟨hp, hsome3, hor⟩ := get_thumb_ok_elim _ _ _ _ _ _ hgt
        dsimp only
        rw [activation_tail_ok_iff env (resolve env.cwd wall0) _ ns thumb w3
          hsome3]
        have hor' : (((w.cache (cache_dir_for env
            (resolve env.cwd wall0))).thumb).isSome = true ∨
            (env.decodeRGB (resolve env.cwd wall0)).isSome = true) := by
          rw [← hthumb_pres]
          exact hor
        simp [hvt, hor']
  · intro hv
    unfold set_wallpaper
    dsimp only
    rw [if_pos hv]

/-- C2 witness: a valid decodable image activates successfully, and an
invalid path aborts with `InvalidImageError` leaving the world untouched. -/
theorem set_wallpaper_abort_points_witness :
    ((set_wallpaper baseEnv imgA true w0).1 = Except.ok ())
    ∧ set_wallpaper baseEnv imgBad true w0 =
        (Except.error Err.invalidImage, w0) :=
  ⟨(set_wallpaper_abort_points baseEnv imgA true w0).1.mpr
      ⟨rfl, Or.inr rfl, rfl⟩,
   (set_wallpaper_abort_points baseEnv imgBad true w0).2 rfl⟩

/-! Claim C4. -/

/-- C4 counterexample: a user config file whose JSON parses to an array (not
an object) makes `json.loads(...).get("wallpaper", {})` raise
`AttributeError`, which the hook step's `except (FileNotFoundError,
JSONDecodeError)` does not catch — the whole activation fails. -/
theorem set_wallpaper_nonobject_config_aborts :
    (set_wallpaper envArrCfg imgA true w0).1 =
      Except.error Err.attributeError := rfl

/-- C4 (amended): the hook step succeeds exactly on the `hook_ok` shapes: a
missing config file, unparsable JSON, and an absent `wallpaper` section or
absent/falsy hook key are silently ignored, and a configured hook that
`subprocess.run` accepts (a string, an array of strings, or an object) runs
without ever failing the activation, whatever its exit status; but a parsed
config whose top level (or whose `wallpaper` entry) is not a JSON object
raises an uncaught `AttributeError` — and a truthy hook value
`subprocess.run` rejects (a number, boolean, or array containing a
non-string) an uncaught `TypeError` — failing the whole activation. -/
theorem post_hook_failure_semantics (env : Env) (wall : FsPath) (w : World) :
    (((run_post_hook env wall w).1 = Except.ok ()) ↔
      hook_ok env.userConfig = true)
    ∧ (env.userConfig = ConfigRead.missing →
        (run_post_hook env wall w).1 = Except.ok ())
    ∧ (env.userConfig = ConfigRead.unparsable →
        (run_post_hook env wall w).1 = Except.ok ())
    ∧ (∀ fields, env.userConfig = ConfigRead.parsed (JValue.obj fields) →
        jLookup fields "wallpaper" = none →
        (run_post_hook env wall w).1 = Except.ok ())
    ∧ (∀ fields cfgFields xs,
        env.userConfig = ConfigRead.parsed (JValue.obj fields) →
        jLookup fields "wallpaper" = some (JValue.obj cfgFields) →
        jLookup cfgFields "postHook" = some (JValue.arr xs) →
        allStrings xs = true →
        (run_post_hook env wall w).1 = Except.ok ()) := by
  refine ⟨run_post_hook_ok_iff env wall w, fun h => ?_, fun h => ?_,
    fun fields h hkey => ?_, fun fields cfgFields xs h hw hph hxs => ?_⟩
  · rw [run_post_hook_ok_iff env wall w, h]
    rfl
  · rw [run_post_hook_ok_iff env wall w, h]
    rfl
  · rw [run_post_hook_ok_iff env wall w, h]
    simp [hook_ok, hkey]
    rfl
  · rw [run_post_hook_ok_iff env wall w, h]
    simp [hook_ok, hw, hph, hxs]

/-- C4 witness: with the missing-config fixture the hook step succeeds. -/
theorem post_hook_failure_semantics_witness :
    (run_post_hook baseEnv imgA w0).1 = Except.ok () :=
  (post_hook_failure_semantics baseEnv imgA w0).2.1 rfl

/-! Claim C1. -/

/-- C1: with exactly one candidate, which is also the current wallpaper, the
`raise ValueError("Only valid wallpaper is current")` inside the `try` block
of `set_random` is caught by that block's own
`except (FileNotFoundError, ValueError)`, so control reaches
`random.choice([])`, which raises `IndexError` — not the `NoCandidatesError`
(`ValueError`) the specification promises. -/
theorem set_random_sole_candidate_raises_index_error :
    (set_random baseEnv argsRand wCurrent).1 = Except.error Err.indexError :=
  rfl

/-! Claim C9. -/

/-- C9: with the resolution filter enabled and a nonempty monitor list, and
every enumerated candidate decodable, `get_wallpapers` returns exactly the
candidates passing `check_wall`; and a candidate with dimensions
`img.width × img.height` is retained if and only if its width is at least
`threshold` times the minimum monitor width and its height at least
`threshold` times the minimum monitor height — two independent, non-strict
comparisons. -/
theorem get_wallpapers_resolution_filter (env : Env) (args : Args)
    (m : Monitor) (ms : List Monitor)
    (hdir : env.isDir args.random = true)
    (hnf : args.no_filter = false)
    (hm : env.monitors = m :: ms)
    (hdec : ∀ f ∈ candidate_walls env args, (env.decodeRGB f).isSome = true) :
    (get_wallpapers env args = Except.ok ((candidate_walls env args).filter
      (fun f =>
        match check_wall env f
            (natMin m.width (ms.map Monitor.width),
             natMin m.height (ms.map Monitor.height)) args.threshold with
        | Except.ok b => b
        | Except.error _ => false)))
    ∧ ∀ f img, env.decodeRGB f = some img →
        (f ∈ (candidate_walls env args).filter
          (fun f =>
            match check_wall env f
                (natMin m.width (ms.map Monitor.width),
                 natMin m.height (ms.map Monitor.height)) args.threshold with
            | Except.ok b => b
            | Except.error _ => false) ↔
          (f ∈ candidate_walls env args ∧
           (img.width : ℚ) ≥ (natMin m.width (ms.map Monitor.width) : ℚ) *
              args.threshold ∧
           (img.height : ℚ) ≥ (natMin m.height (ms.map Monitor.height) : ℚ) *
              args.threshold)) := by
  constructor
  · unfold get_wallpapers
    rw [if_neg (by rw [hdir]; simp)]
    dsimp only
    rw [if_neg (by rw [hnf]; simp : ¬(args.no_filter = true)), hm]
    dsimp only
    apply filterE_eq_filter
    intro f hf
    have hd := hdec f hf
    rcases hdf : env.decodeRGB f with _ | img
    · rw [hdf] at hd
      simp at hd
    · exact ⟨_, by unfold check_wall; rw [hdf]⟩
  · intro f img hdf
    have hcw : check_wall env f
        (natMin m.width (ms.map Monitor.width),
         natMin m.height (ms.map Monitor.height)) args.threshold =
        Except.ok (decide
          ((img.width : ℚ) ≥ (natMin m.width (ms.map Monitor.width) : ℚ) *
              args.threshold ∧
           (img.height : ℚ) ≥ (natMin m.height (ms.map Monitor.height) : ℚ) *
              args.threshold)) := by
      unfold check_wall
      rw [hdf]
    rw [List.mem_filter, hcw]
    simp

/-- C9 witness: the specification's own example — monitors 800×600 and
1920×1080 at threshold 0.5 retain the 500×400 image (500 ≥ 400, 400 ≥ 300). -/
theorem get_wallpapers_resolution_filter_witness :
    imgA ∈ (candidate_walls envTwo argsFilter).filter
      (fun f =>
        match check_wall envTwo f (800, 600) argsFilter.threshold with
        | Except.ok b => b
        | Except.error _ => false) := by
  refine ((get_wallpapers_resolution_filter envTwo argsFilter
    { width := 800, height := 600 } [{ width := 1920, height := 1080 }]
    rfl rfl rfl (by decide)).2 imgA rgbA rfl).mpr ⟨by decide, ?_, ?_⟩
  · show ((rgbA.width : Nat) : ℚ) ≥ ((800 : Nat) : ℚ) * argsFilter.threshold
    norm_num [rgbA, argsFilter]
  · show ((rgbA.height : Nat) : ℚ) ≥ ((600 : Nat) : ℚ) * argsFilter.threshold
    norm_num [rgbA, argsFilter]

/-! Claim C10. -/

/-- C10: the current wallpaper is excluded from the random-selection pool by
exact `Path` equality (`wallpapers.remove(Path(last_wall))`); when the scan
root is a relative path, every enumerated candidate is relative, so a stored
absolute pointer matches none of them and the removal is a no-op — the
current wallpaper stays in the candidate set `set_random` draws from. -/
theorem relative_root_keeps_current_wallpaper (env : Env) (args : Args)
    (p : FsPath) (l : List FsPath)
    (hrel : args.random.absolute = false)
    (habs : p.absolute = true)
    (hl : get_wallpapers env args = Except.ok l) :
    (∀ c ∈ l, c.absolute = false) ∧ removeFirst l p = l := by
  have hall : ∀ c ∈ l, c.absolute = false := fun c hc =>
    candidate_walls_relative env args hrel c
      (get_wallpapers_subset env args l hl c hc)
  refine ⟨hall, removeFirst_of_not_mem l p (fun hmem => ?_)⟩
  have hfalse := hall p hmem
  rw [habs] at hfalse
  exact Bool.noConfusion hfalse

/-- C10 witness: with a relative scan root, removing the stored absolute
current-wallpaper path from the candidate list leaves it unchanged. -/
theorem relative_root_keeps_current_wallpaper_witness :
    removeFirst [imgARel]
      { absolute := true, components := ["home", "walls", "a.png"] } =
      [imgARel] :=
  (relative_root_keeps_current_wallpaper envRel argsRel
    { absolute := true, components := ["home", "walls", "a.png"] }
    [imgARel] rfl rfl rfl).2
